import Mathlib

/-!
Shallow embedding of `library.py`: a console book-catalog manager backed by a
JSON file.  `Book` mirrors the Python `Book` class (field types follow the
source's own annotations), `Library` mirrors the `Library` class with the
backing file modelled explicitly as part of the state.  Console reports
("книга не найдена", "неверный статус", …) are modelled as returned outcome
values, and the record printed by `add_book` as a returned record, since the
source communicates all operation results through the console.
-/

/-- A parsed JSON value, as far as this program's data goes:
integers, strings, arrays and objects. -/
inductive JVal where
  | jint : Int → JVal
  | jstr : String → JVal
  | jarr : List JVal → JVal
  | jobj : List (String × JVal) → JVal

/-- Python exceptions that the library code can raise and does not catch. -/
inductive PyErr where
  | keyError : String → PyErr
  | typeError : PyErr
  | attributeError : String → PyErr
deriving DecidableEq

/-- One book record; field types follow the annotations in `Book.__init__`
(`book_id: int`, `title: str`, `author: str`, `year: int`, `status: str`). -/
structure Book where
  id : Int
  title : String
  author : String
  year : Int
  status : String
deriving DecidableEq

/-- `Book.to_dict`: the dictionary `{"id": …, "title": …, "author": …,
"year": …, "status": …}`, as an association list in insertion order. -/
def Book.to_dict (b : Book) : List (String × JVal) :=
  [("id", JVal.jint b.id), ("title", JVal.jstr b.title),
   ("author", JVal.jstr b.author), ("year", JVal.jint b.year),
   ("status", JVal.jstr b.status)]

/-- `data[key]` on a Python dict: the value when the key is present,
an uncaught `KeyError` otherwise. -/
def dictGet (data : List (String × JVal)) (key : String) : Except PyErr JVal :=
  match data.lookup key with
  | some v => Except.ok v
  | none => Except.error (PyErr.keyError key)

/-- `Book.from_dict`: pulls the five required keys in the source's order,
raising `KeyError` at the first absent one.  The source stores whatever value
the dict holds; this embedding keeps `Book` well-typed, so a value of an
unexpected shape is mapped to an error (no claim exercises that case). -/
def Book.from_dict (data : List (String × JVal)) : Except PyErr Book := do
  let idv ← dictGet data "id"
  let titlev ← dictGet data "title"
  let authorv ← dictGet data "author"
  let yearv ← dictGet data "year"
  let statusv ← dictGet data "status"
  match idv, titlev, authorv, yearv, statusv with
  | JVal.jint i, JVal.jstr t, JVal.jstr a, JVal.jint y, JVal.jstr s =>
      Except.ok ⟨i, t, a, y, s⟩
  | _, _, _, _, _ => Except.error PyErr.typeError

/-- The backing file: absent, present but not parseable as JSON, or present
with a parsed JSON value. -/
inductive FileState where
  | missing : FileState
  | malformed : FileState
  | valid : JVal → FileState

/-- Serialization written by `json.dump([book.to_dict() for book in books])`:
a JSON array of record objects. -/
def serialize (books : List Book) : JVal :=
  JVal.jarr (books.map (fun b => JVal.jobj b.to_dict))

/-- The comprehension `[Book.from_dict(book) for book in data]`, evaluated
left to right; an element that is not a dict raises `TypeError` at
`data["id"]`. -/
def loadItems : List JVal → Except PyErr (List Book)
  | [] => Except.ok []
  | it :: rest =>
      match (match it with
             | JVal.jobj kvs => Book.from_dict kvs
             | _ => Except.error PyErr.typeError) with
      | Except.error e => Except.error e
      | Except.ok b =>
          match loadItems rest with
          | Except.error e => Except.error e
          | Except.ok bs => Except.ok (b :: bs)

/-- `Library.load_books`: `FileNotFoundError` and `json.JSONDecodeError` are
caught and yield `[]`; any other exception escapes.  Iterating a non-array
JSON value either yields nothing (empty string / empty object) or raises
`TypeError` at the first `data["id"]`; `Book.from_dict` failures escape. -/
def load_books (f : FileState) : Except PyErr (List Book) :=
  match f with
  | FileState.missing => Except.ok []
  | FileState.malformed => Except.ok []
  | FileState.valid v =>
    match v with
    | JVal.jarr items => loadItems items
    | JVal.jstr s => if s.isEmpty then Except.ok [] else Except.error PyErr.typeError
    | JVal.jobj kvs => if kvs.isEmpty then Except.ok [] else Except.error PyErr.typeError
    | JVal.jint _ => Except.error PyErr.typeError

/-- The `Library` state: the in-memory list `self.books` and the backing
file the path points at. -/
structure Library where
  books : List Book
  file : FileState

/-- `Library.__init__(data_file)`: runs `load_books`, whose uncaught
exceptions propagate to the caller of the constructor. -/
def Library.init (f : FileState) : Except PyErr Library :=
  match load_books f with
  | Except.ok bs => Except.ok ⟨bs, f⟩
  | Except.error e => Except.error e

/-- `Library.save_books`: overwrites the backing file with the serialization
of the whole in-memory list. -/
def save_books (st : Library) : Library :=
  { st with file := FileState.valid (serialize st.books) }

/-- `Library.find_book_by_id`: first record with matching id, else `None`. -/
def find_book_by_id (st : Library) (book_id : Int) : Option Book :=
  st.books.find? (fun b => b.id == book_id)

/-- `Library.add_book`: new id is `1` on an empty list, else
`self.books[-1].id + 1`; the new record is appended and the file saved.
The created record (reported on the console) is returned alongside. -/
def add_book (st : Library) (title author : String) (year : Int) :
    Library × Book :=
  let book_id : Int :=
    match st.books.getLast? with
    | none => 1
    | some b => b.id + 1
  let new_book : Book := ⟨book_id, title, author, year, "в наличии"⟩
  (save_books { st with books := st.books ++ [new_book] }, new_book)

/-- Outcome a mutating operation reports on the console. -/
inductive Outcome where
  | removed : Outcome
  | statusChanged : Outcome
  | notFound : Outcome
  | invalidStatus : Outcome
deriving DecidableEq

/-- `Library.remove_book`: looks the id up; when found, `list.remove` drops
the first element equal to the found record (the found record itself, being
the first with this id) and the file is saved; otherwise reports not-found. -/
def remove_book (st : Library) (book_id : Int) : Library × Outcome :=
  match find_book_by_id st book_id with
  | some book =>
      (save_books { st with books := st.books.eraseP (fun b => b == book) },
       Outcome.removed)
  | none => (st, Outcome.notFound)

/-- In-place `book.status = new_status` on the record `find_book_by_id`
returned: the first record with this id is updated, the rest untouched. -/
def setStatusFirst : List Book → Int → String → List Book
  | [], _, _ => []
  | b :: bs, i, s =>
      if b.id == i then { b with status := s } :: bs
      else b :: setStatusFirst bs i s

/-- `Library.change_status`: id looked up first; when found, the status must
be one of the two literals before the record is mutated and the file saved. -/
def change_status (st : Library) (book_id : Int) (new_status : String) :
    Library × Outcome :=
  match find_book_by_id st book_id with
  | some _ =>
      if new_status = "в наличии" ∨ new_status = "выдана" then
        (save_books { st with books := setStatusFirst st.books book_id new_status },
         Outcome.statusChanged)
      else (st, Outcome.invalidStatus)
  | none => (st, Outcome.notFound)

/-- What `getattr(book, field)` can resolve to: one of the five instance
data fields (with its value, for textual rendering), or a method /
object-protocol attribute — `to_dict`, `from_dict`, `__class__`, … — whose
textual rendering is interpreter-dependent (bound-method and function
reprs embed a run-specific memory address, `__class__` the module name). -/
inductive PyAttr where
  | val : JVal → PyAttr
  | other : PyAttr

/-- Attribute names a `Book` instance resolves beyond its five data
fields: the class's two methods and the attributes inherited from
`object`, as enumerated by `dir()` under CPython 3.11 (the inherited
names vary slightly across CPython versions; every version includes the
two methods). -/
def bookOtherAttrNames : List String :=
  ["to_dict", "from_dict", "__class__", "__delattr__", "__dict__", "__dir__",
   "__doc__", "__eq__", "__format__", "__ge__", "__getattribute__",
   "__getstate__", "__gt__", "__hash__", "__init__", "__init_subclass__",
   "__le__", "__lt__", "__module__", "__ne__", "__new__", "__reduce__",
   "__reduce_ex__", "__repr__", "__setattr__", "__sizeof__", "__str__",
   "__subclasshook__", "__weakref__"]

/-- `getattr(book, field)`: the five instance fields resolve to their
values; method and object-protocol names also resolve (Python `getattr`
succeeds on them); any other name raises `AttributeError` (`none`). -/
def Book.getattr (b : Book) (field : String) : Option PyAttr :=
  if field = "id" then some (PyAttr.val (JVal.jint b.id))
  else if field = "title" then some (PyAttr.val (JVal.jstr b.title))
  else if field = "author" then some (PyAttr.val (JVal.jstr b.author))
  else if field = "year" then some (PyAttr.val (JVal.jint b.year))
  else if field = "status" then some (PyAttr.val (JVal.jstr b.status))
  else if field ∈ bookOtherAttrNames then some PyAttr.other
  else none

/-- `str(value)` for the values a field can hold. -/
def pyStr : JVal → String
  | JVal.jint i => toString i
  | JVal.jstr s => s
  | JVal.jarr _ => ""
  | JVal.jobj _ => ""

/-- `needle` starts `hay` (character lists). -/
def startsWithB : List Char → List Char → Bool
  | [], _ => true
  | _ :: _, [] => false
  | n :: ns, h :: hs => n == h && startsWithB ns hs

/-- Python's `needle in hay` on strings: contiguous-substring test. -/
def hasSubstr (needle : List Char) : List Char → Bool
  | [] => needle.isEmpty
  | h :: hs => startsWithB needle (h :: hs) || hasSubstr needle hs

/-- Runs `(first, last, step, delta)` of the Unicode 14.0 lowercase
mapping used by CPython 3.11's `str.lower()`: a code point `c` with
`first ≤ c ≤ last` and `(c - first) % step = 0` lowers to `c + delta`.
Extracted from the interpreter and checked against `chr(c).lower()` at
every code point. -/
def lowerRuns : List (Nat × Nat × Nat × Int) :=
  [
    (65, 90, 1, 32), (192, 214, 1, 32), (216, 222, 1, 32), (256, 302, 2, 1), (306, 310, 2, 1),
    (313, 327, 2, 1), (330, 374, 2, 1), (376, 376, 1, -121), (377, 381, 2, 1), (385, 385, 1, 210),
    (386, 388, 2, 1), (390, 390, 1, 206), (391, 391, 1, 1), (393, 394, 1, 205), (395, 395, 1, 1),
    (398, 398, 1, 79), (399, 399, 1, 202), (400, 400, 1, 203), (401, 401, 1, 1), (403, 403, 1, 205),
    (404, 404, 1, 207), (406, 406, 1, 211), (407, 407, 1, 209), (408, 408, 1, 1), (412, 412, 1, 211),
    (413, 413, 1, 213), (415, 415, 1, 214), (416, 420, 2, 1), (422, 422, 1, 218), (423, 423, 1, 1),
    (425, 425, 1, 218), (428, 428, 1, 1), (430, 430, 1, 218), (431, 431, 1, 1), (433, 434, 1, 217),
    (435, 437, 2, 1), (439, 439, 1, 219), (440, 440, 1, 1), (444, 444, 1, 1), (452, 452, 1, 2),
    (453, 453, 1, 1), (455, 455, 1, 2), (456, 456, 1, 1), (458, 458, 1, 2), (459, 475, 2, 1),
    (478, 494, 2, 1), (497, 497, 1, 2), (498, 500, 2, 1), (502, 502, 1, -97), (503, 503, 1, -56),
    (504, 542, 2, 1), (544, 544, 1, -130), (546, 562, 2, 1), (570, 570, 1, 10795), (571, 571, 1, 1),
    (573, 573, 1, -163), (574, 574, 1, 10792), (577, 577, 1, 1), (579, 579, 1, -195), (580, 580, 1, 69),
    (581, 581, 1, 71), (582, 590, 2, 1), (880, 882, 2, 1), (886, 886, 1, 1), (895, 895, 1, 116),
    (902, 902, 1, 38), (904, 906, 1, 37), (908, 908, 1, 64), (910, 911, 1, 63), (913, 929, 1, 32),
    (931, 939, 1, 32), (975, 975, 1, 8), (984, 1006, 2, 1), (1012, 1012, 1, -60), (1015, 1015, 1, 1),
    (1017, 1017, 1, -7), (1018, 1018, 1, 1), (1021, 1023, 1, -130), (1024, 1039, 1, 80), (1040, 1071, 1, 32),
    (1120, 1152, 2, 1), (1162, 1214, 2, 1), (1216, 1216, 1, 15), (1217, 1229, 2, 1), (1232, 1326, 2, 1),
    (1329, 1366, 1, 48), (4256, 4293, 1, 7264), (4295, 4295, 1, 7264), (4301, 4301, 1, 7264), (5024, 5103, 1, 38864),
    (5104, 5109, 1, 8), (7312, 7354, 1, -3008), (7357, 7359, 1, -3008), (7680, 7828, 2, 1), (7838, 7838, 1, -7615),
    (7840, 7934, 2, 1), (7944, 7951, 1, -8), (7960, 7965, 1, -8), (7976, 7983, 1, -8), (7992, 7999, 1, -8),
    (8008, 8013, 1, -8), (8025, 8031, 2, -8), (8040, 8047, 1, -8), (8072, 8079, 1, -8), (8088, 8095, 1, -8),
    (8104, 8111, 1, -8), (8120, 8121, 1, -8), (8122, 8123, 1, -74), (8124, 8124, 1, -9), (8136, 8139, 1, -86),
    (8140, 8140, 1, -9), (8152, 8153, 1, -8), (8154, 8155, 1, -100), (8168, 8169, 1, -8), (8170, 8171, 1, -112),
    (8172, 8172, 1, -7), (8184, 8185, 1, -128), (8186, 8187, 1, -126), (8188, 8188, 1, -9), (8486, 8486, 1, -7517),
    (8490, 8490, 1, -8383), (8491, 8491, 1, -8262), (8498, 8498, 1, 28), (8544, 8559, 1, 16), (8579, 8579, 1, 1),
    (9398, 9423, 1, 26), (11264, 11311, 1, 48), (11360, 11360, 1, 1), (11362, 11362, 1, -10743), (11363, 11363, 1, -3814),
    (11364, 11364, 1, -10727), (11367, 11371, 2, 1), (11373, 11373, 1, -10780), (11374, 11374, 1, -10749), (11375, 11375, 1, -10783),
    (11376, 11376, 1, -10782), (11378, 11378, 1, 1), (11381, 11381, 1, 1), (11390, 11391, 1, -10815), (11392, 11490, 2, 1),
    (11499, 11501, 2, 1), (11506, 11506, 1, 1), (42560, 42604, 2, 1), (42624, 42650, 2, 1), (42786, 42798, 2, 1),
    (42802, 42862, 2, 1), (42873, 42875, 2, 1), (42877, 42877, 1, -35332), (42878, 42886, 2, 1), (42891, 42891, 1, 1),
    (42893, 42893, 1, -42280), (42896, 42898, 2, 1), (42902, 42920, 2, 1), (42922, 42922, 1, -42308), (42923, 42923, 1, -42319),
    (42924, 42924, 1, -42315), (42925, 42925, 1, -42305), (42926, 42926, 1, -42308), (42928, 42928, 1, -42258), (42929, 42929, 1, -42282),
    (42930, 42930, 1, -42261), (42931, 42931, 1, 928), (42932, 42946, 2, 1), (42948, 42948, 1, -48), (42949, 42949, 1, -42307),
    (42950, 42950, 1, -35384), (42951, 42953, 2, 1), (42960, 42960, 1, 1), (42966, 42968, 2, 1), (42997, 42997, 1, 1),
    (65313, 65338, 1, 32), (66560, 66599, 1, 40), (66736, 66771, 1, 40), (66928, 66938, 1, 39), (66940, 66954, 1, 39),
    (66956, 66962, 1, 39), (66964, 66965, 1, 39), (68736, 68786, 1, 64), (71840, 71871, 1, 32), (93760, 93791, 1, 32),
    (125184, 125217, 1, 34)]

/-- Code points with the Unicode `Cased` property (Unicode 14.0), as
inclusive ranges; consulted by the final-sigma rule of `str.lower()`. -/
def casedRanges : List (Nat × Nat) :=
  [
    (65, 90), (97, 122), (170, 170), (181, 181), (186, 186), (192, 214), (216, 246),
    (248, 442), (444, 447), (452, 659), (661, 687), (880, 883), (886, 887), (891, 893),
    (895, 895), (902, 902), (904, 906), (908, 908), (910, 929), (931, 1013), (1015, 1153),
    (1162, 1327), (1329, 1366), (1376, 1416), (4256, 4293), (4295, 4295), (4301, 4301), (4304, 4346),
    (4349, 4351), (5024, 5109), (5112, 5117), (7296, 7304), (7312, 7354), (7357, 7359), (7424, 7467),
    (7531, 7543), (7545, 7578), (7680, 7957), (7960, 7965), (7968, 8005), (8008, 8013), (8016, 8023),
    (8025, 8025), (8027, 8027), (8029, 8029), (8031, 8061), (8064, 8116), (8118, 8124), (8126, 8126),
    (8130, 8132), (8134, 8140), (8144, 8147), (8150, 8155), (8160, 8172), (8178, 8180), (8182, 8188),
    (8450, 8450), (8455, 8455), (8458, 8467), (8469, 8469), (8473, 8477), (8484, 8484), (8486, 8486),
    (8488, 8488), (8490, 8493), (8495, 8500), (8505, 8505), (8508, 8511), (8517, 8521), (8526, 8526),
    (8544, 8575), (8579, 8580), (9398, 9449), (11264, 11387), (11390, 11492), (11499, 11502), (11506, 11507),
    (11520, 11557), (11559, 11559), (11565, 11565), (42560, 42605), (42624, 42651), (42786, 42863), (42865, 42887),
    (42891, 42894), (42896, 42954), (42960, 42961), (42963, 42963), (42965, 42969), (42997, 42998), (43002, 43002),
    (43824, 43866), (43872, 43880), (43888, 43967), (64256, 64262), (64275, 64279), (65313, 65338), (65345, 65370),
    (66560, 66639), (66736, 66771), (66776, 66811), (66928, 66938), (66940, 66954), (66956, 66962), (66964, 66965),
    (66967, 66977), (66979, 66993), (66995, 67001), (67003, 67004), (68736, 68786), (68800, 68850), (71840, 71903),
    (93760, 93823), (119808, 119892), (119894, 119964), (119966, 119967), (119970, 119970), (119973, 119974), (119977, 119980),
    (119982, 119993), (119995, 119995), (119997, 120003), (120005, 120069), (120071, 120074), (120077, 120084), (120086, 120092),
    (120094, 120121), (120123, 120126), (120128, 120132), (120134, 120134), (120138, 120144), (120146, 120485), (120488, 120512),
    (120514, 120538), (120540, 120570), (120572, 120596), (120598, 120628), (120630, 120654), (120656, 120686), (120688, 120712),
    (120714, 120744), (120746, 120770), (120772, 120779), (122624, 122633), (122635, 122654), (125184, 125251), (127280, 127305),
    (127312, 127337), (127344, 127369)]

/-- Code points with the Unicode `Case_Ignorable` property (Unicode 14.0),
as inclusive ranges; consulted by the final-sigma rule of `str.lower()`. -/
def caseIgnorableRanges : List (Nat × Nat) :=
  [
    (39, 39), (46, 46), (58, 58), (94, 94), (96, 96), (168, 168), (173, 173),
    (175, 175), (180, 180), (183, 184), (688, 879), (884, 885), (890, 890), (900, 901),
    (903, 903), (1155, 1161), (1369, 1369), (1375, 1375), (1425, 1469), (1471, 1471), (1473, 1474),
    (1476, 1477), (1479, 1479), (1524, 1524), (1536, 1541), (1552, 1562), (1564, 1564), (1600, 1600),
    (1611, 1631), (1648, 1648), (1750, 1757), (1759, 1768), (1770, 1773), (1807, 1807), (1809, 1809),
    (1840, 1866), (1958, 1968), (2027, 2037), (2042, 2042), (2045, 2045), (2070, 2093), (2137, 2139),
    (2184, 2184), (2192, 2193), (2200, 2207), (2249, 2306), (2362, 2362), (2364, 2364), (2369, 2376),
    (2381, 2381), (2385, 2391), (2402, 2403), (2417, 2417), (2433, 2433), (2492, 2492), (2497, 2500),
    (2509, 2509), (2530, 2531), (2558, 2558), (2561, 2562), (2620, 2620), (2625, 2626), (2631, 2632),
    (2635, 2637), (2641, 2641), (2672, 2673), (2677, 2677), (2689, 2690), (2748, 2748), (2753, 2757),
    (2759, 2760), (2765, 2765), (2786, 2787), (2810, 2815), (2817, 2817), (2876, 2876), (2879, 2879),
    (2881, 2884), (2893, 2893), (2901, 2902), (2914, 2915), (2946, 2946), (3008, 3008), (3021, 3021),
    (3072, 3072), (3076, 3076), (3132, 3132), (3134, 3136), (3142, 3144), (3146, 3149), (3157, 3158),
    (3170, 3171), (3201, 3201), (3260, 3260), (3263, 3263), (3270, 3270), (3276, 3277), (3298, 3299),
    (3328, 3329), (3387, 3388), (3393, 3396), (3405, 3405), (3426, 3427), (3457, 3457), (3530, 3530),
    (3538, 3540), (3542, 3542), (3633, 3633), (3636, 3642), (3654, 3662), (3761, 3761), (3764, 3772),
    (3782, 3782), (3784, 3789), (3864, 3865), (3893, 3893), (3895, 3895), (3897, 3897), (3953, 3966),
    (3968, 3972), (3974, 3975), (3981, 3991), (3993, 4028), (4038, 4038), (4141, 4144), (4146, 4151),
    (4153, 4154), (4157, 4158), (4184, 4185), (4190, 4192), (4209, 4212), (4226, 4226), (4229, 4230),
    (4237, 4237), (4253, 4253), (4348, 4348), (4957, 4959), (5906, 5908), (5938, 5939), (5970, 5971),
    (6002, 6003), (6068, 6069), (6071, 6077), (6086, 6086), (6089, 6099), (6103, 6103), (6109, 6109),
    (6155, 6159), (6211, 6211), (6277, 6278), (6313, 6313), (6432, 6434), (6439, 6440), (6450, 6450),
    (6457, 6459), (6679, 6680), (6683, 6683), (6742, 6742), (6744, 6750), (6752, 6752), (6754, 6754),
    (6757, 6764), (6771, 6780), (6783, 6783), (6823, 6823), (6832, 6862), (6912, 6915), (6964, 6964),
    (6966, 6970), (6972, 6972), (6978, 6978), (7019, 7027), (7040, 7041), (7074, 7077), (7080, 7081),
    (7083, 7085), (7142, 7142), (7144, 7145), (7149, 7149), (7151, 7153), (7212, 7219), (7222, 7223),
    (7288, 7293), (7376, 7378), (7380, 7392), (7394, 7400), (7405, 7405), (7412, 7412), (7416, 7417),
    (7468, 7530), (7544, 7544), (7579, 7679), (8125, 8125), (8127, 8129), (8141, 8143), (8157, 8159),
    (8173, 8175), (8189, 8190), (8203, 8207), (8216, 8217), (8228, 8228), (8231, 8231), (8234, 8238),
    (8288, 8292), (8294, 8303), (8305, 8305), (8319, 8319), (8336, 8348), (8400, 8432), (11388, 11389),
    (11503, 11505), (11631, 11631), (11647, 11647), (11744, 11775), (11823, 11823), (12293, 12293), (12330, 12333),
    (12337, 12341), (12347, 12347), (12441, 12446), (12540, 12542), (40981, 40981), (42232, 42237), (42508, 42508),
    (42607, 42610), (42612, 42621), (42623, 42623), (42652, 42655), (42736, 42737), (42752, 42785), (42864, 42864),
    (42888, 42890), (42994, 42996), (43000, 43001), (43010, 43010), (43014, 43014), (43019, 43019), (43045, 43046),
    (43052, 43052), (43204, 43205), (43232, 43249), (43263, 43263), (43302, 43309), (43335, 43345), (43392, 43394),
    (43443, 43443), (43446, 43449), (43452, 43453), (43471, 43471), (43493, 43494), (43561, 43566), (43569, 43570),
    (43573, 43574), (43587, 43587), (43596, 43596), (43632, 43632), (43644, 43644), (43696, 43696), (43698, 43700),
    (43703, 43704), (43710, 43711), (43713, 43713), (43741, 43741), (43756, 43757), (43763, 43764), (43766, 43766),
    (43867, 43871), (43881, 43883), (44005, 44005), (44008, 44008), (44013, 44013), (64286, 64286), (64434, 64450),
    (65024, 65039), (65043, 65043), (65056, 65071), (65106, 65106), (65109, 65109), (65279, 65279), (65287, 65287),
    (65294, 65294), (65306, 65306), (65342, 65342), (65344, 65344), (65392, 65392), (65438, 65439), (65507, 65507),
    (65529, 65531), (66045, 66045), (66272, 66272), (66422, 66426), (67456, 67461), (67463, 67504), (67506, 67514),
    (68097, 68099), (68101, 68102), (68108, 68111), (68152, 68154), (68159, 68159), (68325, 68326), (68900, 68903),
    (69291, 69292), (69446, 69456), (69506, 69509), (69633, 69633), (69688, 69702), (69744, 69744), (69747, 69748),
    (69759, 69761), (69811, 69814), (69817, 69818), (69821, 69821), (69826, 69826), (69837, 69837), (69888, 69890),
    (69927, 69931), (69933, 69940), (70003, 70003), (70016, 70017), (70070, 70078), (70089, 70092), (70095, 70095),
    (70191, 70193), (70196, 70196), (70198, 70199), (70206, 70206), (70367, 70367), (70371, 70378), (70400, 70401),
    (70459, 70460), (70464, 70464), (70502, 70508), (70512, 70516), (70712, 70719), (70722, 70724), (70726, 70726),
    (70750, 70750), (70835, 70840), (70842, 70842), (70847, 70848), (70850, 70851), (71090, 71093), (71100, 71101),
    (71103, 71104), (71132, 71133), (71219, 71226), (71229, 71229), (71231, 71232), (71339, 71339), (71341, 71341),
    (71344, 71349), (71351, 71351), (71453, 71455), (71458, 71461), (71463, 71467), (71727, 71735), (71737, 71738),
    (71995, 71996), (71998, 71998), (72003, 72003), (72148, 72151), (72154, 72155), (72160, 72160), (72193, 72202),
    (72243, 72248), (72251, 72254), (72263, 72263), (72273, 72278), (72281, 72283), (72330, 72342), (72344, 72345),
    (72752, 72758), (72760, 72765), (72767, 72767), (72850, 72871), (72874, 72880), (72882, 72883), (72885, 72886),
    (73009, 73014), (73018, 73018), (73020, 73021), (73023, 73029), (73031, 73031), (73104, 73105), (73109, 73109),
    (73111, 73111), (73459, 73460), (78896, 78904), (92912, 92916), (92976, 92982), (92992, 92995), (94031, 94031),
    (94095, 94111), (94176, 94177), (94179, 94180), (110576, 110579), (110581, 110587), (110589, 110590), (113821, 113822),
    (113824, 113827), (118528, 118573), (118576, 118598), (119143, 119145), (119155, 119170), (119173, 119179), (119210, 119213),
    (119362, 119364), (121344, 121398), (121403, 121452), (121461, 121461), (121476, 121476), (121499, 121503), (121505, 121519),
    (122880, 122886), (122888, 122904), (122907, 122913), (122915, 122916), (122918, 122922), (123184, 123197), (123566, 123566),
    (123628, 123631), (125136, 125142), (125252, 125259), (127995, 127999), (917505, 917505), (917536, 917631), (917760, 917999)]

/-- Delta of the first run containing `c`, if any. -/
def runDelta (c : Nat) : List (Nat × Nat × Nat × Int) → Option Int
  | [] => none
  | (f, l, s, d) :: rest =>
      if f ≤ c ∧ c ≤ l ∧ (c - f) % s = 0 then some d else runDelta c rest

/-- Membership of `c` in a list of inclusive ranges. -/
def inRanges (c : Nat) : List (Nat × Nat) → Bool
  | [] => false
  | (f, l) :: rest => (decide (f ≤ c) && decide (c ≤ l)) || inRanges c rest

def isCased (c : Char) : Bool := inRanges c.toNat casedRanges

def isCaseIgnorable (c : Char) : Bool := inRanges c.toNat caseIgnorableRanges

/-- Context-free lowering of one code point (`İ` expands to two code
points); the capital sigma is handled separately, by context. -/
def pyLowerChar (c : Char) : List Char :=
  if c.toNat = 0x130 then [Char.ofNat 0x69, Char.ofNat 0x307]
  else
    match runDelta c.toNat lowerRuns with
    | some d => [Char.ofNat (Int.ofNat c.toNat + d).toNat]
    | none => [c]

/-- Walking left from a capital sigma over case-ignorable characters, is
the next character cased?  (The argument is the reversed prefix.) -/
def precededByCased : List Char → Bool
  | [] => false
  | c :: rest => if isCaseIgnorable c then precededByCased rest else isCased c

/-- Walking right over case-ignorable characters, is the next character
cased? -/
def followedByCased : List Char → Bool
  | [] => false
  | c :: rest => if isCaseIgnorable c then followedByCased rest else isCased c

/-- `str.lower()` over the original characters, carrying the reversed
prefix for the final-sigma context rule: `Σ` lowers to `ς` when preceded
(skipping case-ignorables) by a cased character and not followed by one,
else to `σ` — CPython's `handle_capital_sigma`. -/
def pyLowerGo (before : List Char) : List Char → List Char
  | [] => []
  | c :: rest =>
      (if c.toNat = 0x3A3 then
        (if precededByCased before && !(followedByCased rest)
         then [Char.ofNat 0x3C2] else [Char.ofNat 0x3C3])
       else pyLowerChar c)
        ++ pyLowerGo (c :: before) rest

/-- Python's `str.lower()`, as a sequence of code points: the CPython 3.11
/ Unicode 14.0 full lowercase mapping with the final-sigma context rule.
Validated against the interpreter at every single code point and on
sigma-context fuzz strings. -/
def pyLower (s : String) : List Char :=
  pyLowerGo [] s.data

/-- `keyword.lower() in str(getattr(book, field)).lower()` for a record
whose field resolves to a data value. -/
def matchKw (keyword field : String) (b : Book) : Bool :=
  match b.getattr field with
  | some (PyAttr.val v) => hasSubstr (pyLower keyword) (pyLower (pyStr v))
  | _ => false

/-- The list comprehension in `search_books`, evaluated left to right: an
unknown field raises `AttributeError` at the first record.  On a method /
object-protocol attribute the comprehension matches the keyword against an
interpreter-dependent rendering (see `PyAttr`), so that match outcome
enters the model as the parameter `methodHit`. -/
def searchFilter (methodHit : Book → Bool) (keyword field : String) :
    List Book → Except PyErr (List Book)
  | [] => Except.ok []
  | b :: bs =>
      match b.getattr field with
      | none => Except.error (PyErr.attributeError field)
      | some (PyAttr.val v) =>
          match searchFilter methodHit keyword field bs with
          | Except.error e => Except.error e
          | Except.ok rest =>
              Except.ok
                (if hasSubstr (pyLower keyword) (pyLower (pyStr v))
                 then b :: rest else rest)
      | some PyAttr.other =>
          match searchFilter methodHit keyword field bs with
          | Except.error e => Except.error e
          | Except.ok rest => Except.ok (if methodHit b then b :: rest else rest)

/-- `Library.search_books`: the records the comprehension selects, in
original order (the source then displays them). -/
def search_books (methodHit : Book → Bool) (st : Library)
    (keyword field : String) : Except PyErr (List Book) :=
  searchFilter methodHit keyword field st.books

/-- Operations the console menu can drive against a catalog. -/
inductive Op where
  | add : String → String → Int → Op
  | remove : Int → Op
  | changeStatus : Int → String → Op

/-- State transition of one operation (the display operations do not
change state). -/
def applyOp (st : Library) : Op → Library
  | Op.add t a y => (add_book st t a y).1
  | Op.remove i => (remove_book st i).1
  | Op.changeStatus i s => (change_status st i s).1

/-- A catalog freshly constructed over a missing file: the empty catalog. -/
def emptyLib : Library := ⟨[], FileState.missing⟩

/-- Catalog state reached by running a list of operations from the empty
catalog. -/
def execOps (ops : List Op) : Library :=
  ops.foldl applyOp emptyLib

/-- The maximum id among the records (`0` when there are none): the quantity
the spec's id-assignment sentence refers to. -/
def maxId (books : List Book) : Int :=
  (books.map Book.id).foldr max 0

/-! ## Supporting lemmas -/

theorem startsWithB_iff (n h : List Char) :
    startsWithB n h = true ↔ ∃ t, h = n ++ t := by
  induction n generalizing h with
  | nil => simp [startsWithB]
  | cons c cs ih =>
      cases h with
      | nil => simp [startsWithB]
      | cons d ds =>
          simp only [startsWithB, Bool.and_eq_true, beq_iff_eq, ih,
            List.cons_append, List.cons.injEq]
          constructor
          · rintro ⟨rfl, t, rfl⟩
            exact ⟨t, rfl, rfl⟩
          · rintro ⟨t, rfl, rfl⟩
            exact ⟨rfl, t, rfl⟩

theorem hasSubstr_iff (n h : List Char) :
    hasSubstr n h = true ↔ ∃ p q, h = p ++ n ++ q := by
  induction h with
  | nil =>
      simp only [hasSubstr, List.isEmpty_iff]
      constructor
      · rintro rfl
        exact ⟨[], [], rfl⟩
      · rintro ⟨p, q, hpq⟩
        rcases List.append_eq_nil.1 (List.append_eq_nil.1 hpq.symm).1 with ⟨h1, h2⟩
        exact h2
  | cons d ds ih =>
      simp only [hasSubstr, Bool.or_eq_true, startsWithB_iff, ih]
      constructor
      · rintro (⟨t, ht⟩ | ⟨p, q, hpq⟩)
        · exact ⟨[], t, by simpa using ht⟩
        · exact ⟨d :: p, q, by simp [hpq]⟩
      · rintro ⟨p, q, hpq⟩
        cases p with
        | nil => exact Or.inl ⟨q, by simpa using hpq⟩
        | cons e es =>
            rw [List.cons_append, List.cons_append, List.cons.injEq] at hpq
            exact Or.inr ⟨es, q, hpq.2⟩

theorem hasSubstr_nil_left (h : List Char) : hasSubstr [] h = true := by
  cases h with
  | nil => rfl
  | cons d ds => simp [hasSubstr, startsWithB]

/-- Round trip of one record through its dictionary form. -/
theorem from_dict_to_dict (b : Book) : Book.from_dict b.to_dict = Except.ok b := rfl

/-- Round trip of a whole serialized array through `loadItems`. -/
theorem loadItems_serialize (books : List Book) :
    loadItems (books.map (fun b => JVal.jobj b.to_dict)) = Except.ok books := by
  induction books with
  | nil => rfl
  | cons b bs ih => simp [loadItems, from_dict_to_dict, ih]

/-- On a field where every record resolves to a data value, the
comprehension returns exactly the filtered subsequence. -/
theorem searchFilter_ok (methodHit : Book → Bool) (kw field : String)
    (l : List Book)
    (hval : ∀ b ∈ l, ∃ v, Book.getattr b field = some (PyAttr.val v)) :
    searchFilter methodHit kw field l =
      Except.ok (l.filter (matchKw kw field)) := by
  induction l with
  | nil => rfl
  | cons b bs ih =>
      rcases hval b (List.mem_cons_self b bs) with ⟨v, hv⟩
      have ihbs := ih fun x hx => hval x (List.mem_cons_of_mem b hx)
      have hm : matchKw kw field b = hasSubstr (pyLower kw) (pyLower (pyStr v)) := by
        simp [matchKw, hv]
      simp only [searchFilter, hv, ihbs, List.filter_cons, hm]

/-- On a method / object-protocol attribute the comprehension raises
nothing: it returns the records the interpreter-dependent match selects. -/
theorem searchFilter_other (methodHit : Book → Bool) (kw field : String)
    (l : List Book)
    (hother : ∀ b ∈ l, Book.getattr b field = some PyAttr.other) :
    searchFilter methodHit kw field l = Except.ok (l.filter methodHit) := by
  induction l with
  | nil => rfl
  | cons b bs ih =>
      have hb := hother b (List.mem_cons_self b bs)
      have ihbs := ih fun x hx => hother x (List.mem_cons_of_mem b hx)
      simp only [searchFilter, hb, ihbs, List.filter_cons]

/-- Status updates do not touch ids. -/
theorem setStatusFirst_map_id (bs : List Book) (i : Int) (s : String) :
    (setStatusFirst bs i s).map Book.id = bs.map Book.id := by
  induction bs with
  | nil => rfl
  | cons b rest ih =>
      by_cases h : b.id == i
      · simp [setStatusFirst, h]
      · simp [setStatusFirst, h, ih]

/-- In a strictly increasing list the head is at most the last element. -/
theorem head_le_getLast (L : List Int) (a : Int)
    (hs : List.Pairwise (· < ·) (a :: L)) :
    a ≤ ((a :: L).getLast?).getD 0 := by
  induction L generalizing a with
  | nil => simp
  | cons b L' ih =>
      have hab : a < b := (List.pairwise_cons.1 hs).1 b (List.mem_cons_self b L')
      have htail : List.Pairwise (· < ·) (b :: L') := (List.pairwise_cons.1 hs).2
      calc a ≤ b := le_of_lt hab
        _ ≤ ((b :: L').getLast?).getD 0 := ih b htail
        _ = (((a :: b :: L').getLast?)).getD 0 := by simp

/-- In a strictly increasing list every element is at most the last one. -/
theorem mem_le_getLast (L : List Int) (hs : List.Pairwise (· < ·) L) :
    ∀ i ∈ L, i ≤ (L.getLast?).getD 0 := by
  induction L with
  | nil => intro i hi; cases hi
  | cons a L' ih =>
      intro i hi
      rcases List.mem_cons.1 hi with rfl | hi'
      · exact head_le_getLast L' i hs
      · have htail := (List.pairwise_cons.1 hs).2
        have := ih htail i hi'
        cases L' with
        | nil => cases hi'
        | cons b L'' => simpa using this

/-- For a strictly increasing list of nonnegative values, folding `max`
from `0` lands on the last element. -/
theorem foldr_max_eq_getLast (L : List Int)
    (hs : List.Pairwise (· < ·) L) (h0 : ∀ i ∈ L, 0 ≤ i) :
    L.foldr max 0 = (L.getLast?).getD 0 := by
  induction L with
  | nil => rfl
  | cons a L' ih =>
      cases L' with
      | nil =>
          simp only [List.foldr]
          have := h0 a (List.mem_cons_self a [])
          simp [max_eq_left this]
      | cons b L'' =>
          have htail : List.Pairwise (· < ·) (b :: L'') := (List.pairwise_cons.1 hs).2
          have h0' : ∀ i ∈ b :: L'', 0 ≤ i := fun i hi =>
            h0 i (List.mem_cons_of_mem a hi)
          have hfold := ih htail h0'
          have hab : a < b := (List.pairwise_cons.1 hs).1 b (List.mem_cons_self b L'')
          have hble : b ≤ ((b :: L'').getLast?).getD 0 :=
            head_le_getLast L'' b htail
          have hmax : max a ((b :: L'').foldr max 0) = (b :: L'').foldr max 0 := by
            apply max_eq_right
            rw [hfold]
            exact le_of_lt (lt_of_lt_of_le hab hble)
          calc (a :: b :: L'').foldr max 0 = max a ((b :: L'').foldr max 0) := rfl
            _ = (b :: L'').foldr max 0 := hmax
            _ = ((b :: L'').getLast?).getD 0 := hfold
            _ = ((a :: b :: L'').getLast?).getD 0 := by simp

/-- Catalog states whose record ids are strictly increasing and positive:
the shape every state reachable from the empty catalog has. -/
def goodIds (st : Library) : Prop :=
  List.Pairwise (· < ·) (st.books.map Book.id) ∧
    ∀ i ∈ st.books.map Book.id, 1 ≤ i

theorem goodIds_add (st : Library) (t a : String) (y : Int)
    (hg : goodIds st) : goodIds (add_book st t a y).1 := by
  obtain ⟨hs, hp⟩ := hg
  set newId : Int :=
    (match st.books.getLast? with
     | none => 1
     | some b => b.id + 1) with hnewId
  have hbooks : (add_book st t a y).1.books =
      st.books ++ [⟨newId, t, a, y, "в наличии"⟩] := rfl
  have hids : ((add_book st t a y).1.books).map Book.id =
      st.books.map Book.id ++ [newId] := by
    simp [hbooks]
  have hlast : ∀ i ∈ st.books.map Book.id, i < newId := by
    intro i hi
    have hle := mem_le_getLast (st.books.map Book.id) hs i hi
    have hgl : ((st.books.map Book.id).getLast?).getD 0 < newId := by
      rw [List.getLast?_map]
      cases hb : st.books.getLast? with
      | none =>
          have hnil : st.books = [] := List.getLast?_eq_none_iff.1 hb
          rw [hnil] at hi
          simp at hi
      | some b => simp [hnewId, hb]
    exact lt_of_le_of_lt hle hgl
  have hone : 1 ≤ newId := by
    cases hb : st.books.getLast? with
    | none => simp [hnewId, hb]
    | some b =>
        have hbmem : b ∈ st.books := by
          have hmem : b ∈ st.books.getLast? := by simp [hb]
          rcases List.mem_getLast?_eq_getLast hmem with ⟨hne, rfl⟩
          exact List.getLast_mem hne
        have : 1 ≤ b.id := hp b.id (List.mem_map_of_mem Book.id hbmem)
        simp only [hnewId, hb]
        omega
  constructor
  · rw [hids, List.pairwise_append]
    exact ⟨hs, List.pairwise_singleton _ _,
      fun i hi j hj => by rw [List.mem_singleton] at hj; subst hj; exact hlast i hi⟩
  · intro i hi
    rw [hids, List.mem_append] at hi
    rcases hi with hi | hi
    · exact hp i hi
    · rw [List.mem_singleton] at hi; subst hi; exact hone

theorem goodIds_remove (st : Library) (i : Int)
    (hg : goodIds st) : goodIds (remove_book st i).1 := by
  obtain ⟨hs, hp⟩ := hg
  cases hfind : find_book_by_id st i with
  | none => simpa [remove_book, hfind] using ⟨hs, hp⟩
  | some b =>
      have hsub : List.Sublist (st.books.eraseP (fun x => x == b)) st.books :=
        List.eraseP_sublist st.books
      have hsubmap : List.Sublist
          ((st.books.eraseP (fun x => x == b)).map Book.id)
          (st.books.map Book.id) := hsub.map Book.id
      constructor
      · simpa [remove_book, hfind] using hs.sublist hsubmap
      · intro j hj
        simp only [remove_book, hfind] at hj
        exact hp j (hsubmap.mem hj)

theorem goodIds_changeStatus (st : Library) (i : Int) (s : String)
    (hg : goodIds st) : goodIds (change_status st i s).1 := by
  obtain ⟨hs, hp⟩ := hg
  cases hfind : find_book_by_id st i with
  | none => simpa [change_status, hfind] using ⟨hs, hp⟩
  | some b =>
      by_cases hv : s = "в наличии" ∨ s = "выдана"
      · constructor
        · simpa [change_status, hfind, hv, save_books, setStatusFirst_map_id] using hs
        · intro j hj
          simp only [change_status, hfind, hv, if_pos, save_books,
            setStatusFirst_map_id] at hj
          exact hp j hj
      · simpa [change_status, hfind, hv] using ⟨hs, hp⟩

theorem goodIds_applyOp (st : Library) (op : Op)
    (hg : goodIds st) : goodIds (applyOp st op) := by
  cases op with
  | add t a y => exact goodIds_add st t a y hg
  | remove i => exact goodIds_remove st i hg
  | changeStatus i s => exact goodIds_changeStatus st i s hg

theorem goodIds_foldl (ops : List Op) (st : Library)
    (hg : goodIds st) : goodIds (ops.foldl applyOp st) := by
  induction ops generalizing st with
  | nil => exact hg
  | cons op rest ih => exact ih (applyOp st op) (goodIds_applyOp st op hg)

theorem goodIds_execOps (ops : List Op) : goodIds (execOps ops) :=
  goodIds_foldl ops emptyLib ⟨List.Pairwise.nil, by intro i hi; cases hi⟩

/-- In a state with increasing positive ids, the id `add_book` hands out is
one more than the maximum id (`1` on an empty catalog). -/
theorem add_book_id_of_goodIds (st : Library) (t a : String) (y : Int)
    (hg : goodIds st) :
    (add_book st t a y).2.id = maxId st.books + 1 := by
  obtain ⟨hs, hp⟩ := hg
  cases hb : st.books.getLast? with
  | none =>
      have hnil : st.books = [] := List.getLast?_eq_none_iff.1 hb
      simp [add_book, hb, maxId, hnil]
  | some b =>
      have h0 : ∀ i ∈ st.books.map Book.id, 0 ≤ i := fun i hi =>
        le_trans (by omega) (hp i hi)
      have hfold := foldr_max_eq_getLast (st.books.map Book.id) hs h0
      have hgl : ((st.books.map Book.id).getLast?).getD 0 = b.id := by
        rw [List.getLast?_map, hb]
        rfl
      simp only [add_book, hb, maxId, hfold, hgl]

/-- After erasing the record `find?` located, no record with that id is
left, provided ids are pairwise distinct. -/
theorem find?_eraseP_eq_none (books : List Book) (i : Int) (b : Book)
    (hu : List.Pairwise (fun x y => x.id ≠ y.id) books)
    (hf : books.find? (fun x => x.id == i) = some b) :
    (books.eraseP (fun x => x == b)).find? (fun x => x.id == i) = none := by
  induction books with
  | nil => cases hf
  | cons a bs ih =>
      by_cases ha : a.id = i
      · have hba : b = a := by
          have : (a :: bs).find? (fun x => x.id == i) = some a := by
            simp [List.find?_cons, ha]
          rw [this] at hf
          exact (Option.some.injEq _ _ ▸ hf).symm
        subst hba
        have herase : (b :: bs).eraseP (fun x => x == b) = bs := by
          simp [List.eraseP_cons]
        rw [herase]
        apply List.find?_eq_none.2
        intro x hx
        have hne : b.id ≠ x.id := (List.pairwise_cons.1 hu).1 x hx
        simp only [beq_iff_eq]
        rw [ha] at hne
        exact fun hxi => hne hxi.symm
      · have hfa : ((a.id == i) = false) := by simp [ha]
        have hftail : bs.find? (fun x => x.id == i) = some b := by
          rw [List.find?_cons, hfa] at hf
          exact hf
        have hbid : b.id = i := by
          have := List.find?_some hftail
          simpa using this
        have hab : (a == b) = false := by
          simp only [beq_eq_false_iff_ne, ne_eq]
          intro heq
          rw [heq, hbid] at ha
          exact ha rfl
        simp only [List.eraseP_cons, hab, cond_false]
        simp only [List.find?_cons, hfa]
        exact ih (List.pairwise_cons.1 hu).2 hftail

/-! ## Fixtures for concrete evaluations -/

def demoBook : Book := ⟨1, "Тестовая книга", "Автор", 2020, "в наличии"⟩

def demoLib : Library := ⟨[demoBook], FileState.missing⟩

def presetBookA : Book := ⟨5, "Старшая книга", "Автор А", 2000, "в наличии"⟩

def presetBookB : Book := ⟨2, "Младшая книга", "Автор Б", 2001, "выдана"⟩

def presetLib : Library :=
  ⟨[presetBookA, presetBookB], FileState.valid (serialize [presetBookA, presetBookB])⟩

def pythonBook1 : Book := ⟨1, "Python Basics", "Автор 1", 2021, "в наличии"⟩

def pythonBook2 : Book := ⟨2, "Advanced Python", "Автор 2", 2020, "в наличии"⟩

def pythonBook3 : Book := ⟨3, "Cooking", "Автор 3", 2019, "в наличии"⟩

def pythonLib : Library :=
  ⟨[pythonBook1, pythonBook2, pythonBook3], FileState.missing⟩

/-! ## Claim theorems -/

/-- C1 (amended): starting from any catalog state reachable from the empty
catalog by the catalog's own operations, the record created by `add_book` is
assigned an id equal to one greater than the current maximum id among the
records, or `1` if the sequence is empty (`maxId [] = 0`). -/
theorem C1_add_id_reachable (ops : List Op) (t a : String) (y : Int) :
    (add_book (execOps ops) t a y).2.id = maxId (execOps ops).books + 1 :=
  add_book_id_of_goodIds (execOps ops) t a y (goodIds_execOps ops)

/-- C1 (counterexample): a catalog whose ids are unique but not in
increasing order — obtained by constructing the catalog over a file holding
the records with ids `[5, 2]` — is a catalog state on which `add_book`
assigns `books[-1].id + 1 = 3`, not `max(ids) + 1 = 6`. -/
theorem C1_add_id_counterexample :
    Library.init (FileState.valid (serialize [presetBookA, presetBookB])) =
      Except.ok presetLib
    ∧ (add_book presetLib "Новая книга" "Автор В" 1999).2.id = 3
    ∧ maxId presetLib.books + 1 = 6
    ∧ (add_book presetLib "Новая книга" "Автор В" 1999).2.id ≠
        maxId presetLib.books + 1 :=
  ⟨rfl, rfl, rfl, by decide⟩

/-- C2: a missing file and a file whose content does not parse as JSON both
yield an empty catalog with no error; but a file holding the well-formed
JSON text `[{}]` (a record mapping with every required field absent) makes
the constructor raise an uncaught `KeyError("id")`, contradicting the
claim's (and the docstring's) "malformed content yields an empty catalog,
no error surfaced". -/
theorem C2_load_eval :
    Library.init FileState.missing = Except.ok ⟨[], FileState.missing⟩
    ∧ Library.init FileState.malformed = Except.ok ⟨[], FileState.malformed⟩
    ∧ Library.init (FileState.valid (JVal.jarr [JVal.jobj []])) =
        Except.error (PyErr.keyError "id") :=
  ⟨rfl, rfl, rfl⟩

/-- C3: for every in-memory sequence of records, `save_books` followed by a
fresh construction (`load_books`) over the written file reproduces exactly
the same sequence of records — same ids, titles, authors, years and
statuses, in the same order. -/
theorem C3_save_load_roundtrip (books : List Book) (f : FileState) :
    Library.init (save_books ⟨books, f⟩).file =
      Except.ok ⟨books, FileState.valid (serialize books)⟩ := by
  simp [Library.init, save_books, load_books, serialize, loadItems_serialize]

/-- C4: after `add_book`, after `remove_book` on a present id, and after
`change_status` on a present id with a valid status, the backing file holds
the serialization of the entire current in-memory sequence in the state
each operation returns. -/
theorem C4_mutations_persist (st : Library) (t a : String) (y : Int)
    (i j : Int) (s : String)
    (hrem : (find_book_by_id st i).isSome)
    (hstat : (find_book_by_id st j).isSome)
    (hs : s = "в наличии" ∨ s = "выдана") :
    (add_book st t a y).1.file =
      FileState.valid (serialize (add_book st t a y).1.books)
    ∧ (remove_book st i).1.file =
        FileState.valid (serialize (remove_book st i).1.books)
    ∧ (change_status st j s).1.file =
        FileState.valid (serialize (change_status st j s).1.books) := by
  refine ⟨rfl, ?_, ?_⟩
  · rcases Option.isSome_iff_exists.1 hrem with ⟨b, hb⟩
    simp [remove_book, hb, save_books]
  · rcases Option.isSome_iff_exists.1 hstat with ⟨b, hb⟩
    simp [change_status, hb, hs, save_books]

/-- C4 (witness): the three persistence equations at a concrete one-record
catalog. -/
theorem C4_witness :
    (add_book demoLib "Новая" "Автор Н" 0).1.file =
      FileState.valid (serialize (add_book demoLib "Новая" "Автор Н" 0).1.books)
    ∧ (remove_book demoLib 1).1.file =
        FileState.valid (serialize (remove_book demoLib 1).1.books)
    ∧ (change_status demoLib 1 "выдана").1.file =
        FileState.valid (serialize (change_status demoLib 1 "выдана").1.books) :=
  C4_mutations_persist demoLib "Новая" "Автор Н" 0 1 1 "выдана" rfl rfl (Or.inr rfl)

/-- C5 (amended): for every id PRESENT in the catalog and every status that
is not one of the two valid literals, `change_status` reports the
invalid-status outcome and leaves the whole state — every record's status
and the backing file — unchanged. -/
theorem C5_invalid_status (st : Library) (i : Int) (s : String)
    (hpres : (find_book_by_id st i).isSome)
    (hinv : s ≠ "в наличии" ∧ s ≠ "выдана") :
    (change_status st i s).2 = Outcome.invalidStatus
    ∧ (change_status st i s).1 = st := by
  rcases Option.isSome_iff_exists.1 hpres with ⟨b, hb⟩
  have hcond : ¬(s = "в наличии" ∨ s = "выдана") := by
    rintro (h | h)
    exacts [hinv.1 h, hinv.2 h]
  constructor <;> simp [change_status, hb, hcond]

/-- C5 (witness): a concrete present id with an invalid status. -/
theorem C5_witness :
    (change_status demoLib 1 "сдана").2 = Outcome.invalidStatus
    ∧ (change_status demoLib 1 "сдана").1 = demoLib :=
  C5_invalid_status demoLib 1 "сдана" rfl ⟨by decide, by decide⟩

/-- C5 (counterexample): for an id that is absent, `change_status` with an
invalid status reports the not-found outcome, not the invalid-input outcome
the claim states for every id (the source checks presence first). -/
theorem C5_counterexample :
    ("сдана" ≠ "в наличии" ∧ "сдана" ≠ "выдана")
    ∧ (change_status emptyLib 1 "сдана").2 = Outcome.notFound
    ∧ (change_status emptyLib 1 "сдана").2 ≠ Outcome.invalidStatus :=
  ⟨⟨by decide, by decide⟩, rfl, by decide⟩

/-- C6: removing an id no record carries reports the not-found outcome (the
operation has no raising path) and returns the state entirely unchanged. -/
theorem C6_remove_absent (st : Library) (i : Int)
    (habs : ∀ b ∈ st.books, b.id ≠ i) :
    (remove_book st i).2 = Outcome.notFound ∧ (remove_book st i).1 = st := by
  have hfind : find_book_by_id st i = none := by
    apply List.find?_eq_none.2
    intro b hb
    simp [habs b hb]
  constructor <;> simp [remove_book, hfind]

/-- C6 (witness): removing id 999 from a one-record catalog. -/
theorem C6_witness :
    (remove_book demoLib 999).2 = Outcome.notFound
    ∧ (remove_book demoLib 999).1 = demoLib :=
  C6_remove_absent demoLib 999 (by decide)

/-- C7: in a catalog whose record ids are pairwise distinct (the data-model
invariant), removing a present id and then looking it up yields `None`. -/
theorem C7_find_after_remove (st : Library) (i : Int)
    (huniq : List.Pairwise (fun x y => x.id ≠ y.id) st.books)
    (hpres : (find_book_by_id st i).isSome) :
    find_book_by_id (remove_book st i).1 i = none := by
  rcases Option.isSome_iff_exists.1 hpres with ⟨b, hb⟩
  have hfind : st.books.find? (fun x => x.id == i) = some b := hb
  simp only [remove_book, find_book_by_id, hfind, save_books]
  exact find?_eraseP_eq_none st.books i b huniq hfind

/-- C7 (witness): removing the only record and looking its id up again. -/
theorem C7_witness : find_book_by_id (remove_book demoLib 1).1 1 = none :=
  C7_find_after_remove demoLib 1 (by simp [demoLib]) rfl

/-- C8: on the three valid fields, search returns exactly the records whose
field's textual rendering contains the keyword case-insensitively — i.e.
whose `str.lower()`-ed rendering splits around the lowered keyword — as a
filter of the sequence in original order; the empty keyword selects every
record, and the "Python"-on-titles example selects exactly the first two
records.  (`methodHit` is irrelevant on the three data fields.) -/
theorem C8_search_characterization (methodHit : Book → Bool) (st : Library)
    (kw field : String)
    (hf : field = "title" ∨ field = "author" ∨ field = "year") :
    search_books methodHit st kw field =
      Except.ok (st.books.filter (matchKw kw field))
    ∧ (∀ b v, Book.getattr b field = some (PyAttr.val v) →
        (matchKw kw field b = true ↔
          ∃ p q, pyLower (pyStr v) = p ++ pyLower kw ++ q))
    ∧ (kw = "" → search_books methodHit st kw field = Except.ok st.books)
    ∧ search_books methodHit pythonLib "Python" "title" =
        Except.ok [pythonBook1, pythonBook2] := by
  have hval : ∀ b : Book, ∃ v, Book.getattr b field = some (PyAttr.val v) := by
    intro b
    rcases hf with h | h | h <;> subst h <;> exact ⟨_, rfl⟩
  refine ⟨?_, ?_, ?_, ?_⟩
  · exact searchFilter_ok methodHit kw field st.books (fun b _ => hval b)
  · intro b v hv
    have hm : matchKw kw field b = hasSubstr (pyLower kw) (pyLower (pyStr v)) := by
      simp [matchKw, hv]
    rw [hm, hasSubstr_iff]
  · intro hkw
    subst hkw
    have h1 := searchFilter_ok methodHit "" field st.books (fun b _ => hval b)
    have hpl : pyLower "" = ([] : List Char) := rfl
    have h2 : st.books.filter (matchKw "" field) = st.books := by
      apply List.filter_eq_self.2
      intro b hb
      rcases hval b with ⟨v, hv⟩
      simp [matchKw, hv, hpl, hasSubstr_nil_left]
    rw [search_books, h1, h2]
  · have h1 := searchFilter_ok methodHit "Python" "title" pythonLib.books
      (fun b _ => ⟨_, rfl⟩)
    rw [search_books, h1]
    rfl

/-- C8 (witness): the spec's own example, via the characterization. -/
theorem C8_witness :
    search_books (fun _ => false) pythonLib "Python" "title" =
      Except.ok [pythonBook1, pythonBook2] :=
  (C8_search_characterization (fun _ => false) pythonLib "Python" "title"
    (Or.inl rfl)).2.2.2

/-- C9: `add_book` appends the created record at the end of the sequence,
persists the new sequence to the backing file, and hands the created record
back; its descriptive fields are the given ones and its status the
default. -/
theorem C9_add_append (st : Library) (t a : String) (y : Int) :
    (add_book st t a y).1.books = st.books ++ [(add_book st t a y).2]
    ∧ (add_book st t a y).1.file =
        FileState.valid (serialize ((add_book st t a y).1.books))
    ∧ (add_book st t a y).2.title = t
    ∧ (add_book st t a y).2.author = a
    ∧ (add_book st t a y).2.year = y
    ∧ (add_book st t a y).2.status = "в наличии" :=
  ⟨rfl, rfl, rfl, rfl, rfl, rfl⟩

/-- C10 (counterexample): `"to_dict"` is outside the five data-field names,
yet on a non-empty catalog the search raises nothing there — `getattr`
resolves the method — whichever way the interpreter-dependent keyword
match against the bound-method repr comes out. -/
theorem C10_counterexample :
    ("to_dict" ≠ "id" ∧ "to_dict" ≠ "title" ∧ "to_dict" ≠ "author" ∧
      "to_dict" ≠ "year" ∧ "to_dict" ≠ "status")
    ∧ search_books (fun _ => false) demoLib "метод" "to_dict" = Except.ok []
    ∧ search_books (fun _ => true) demoLib "метод" "to_dict" =
        Except.ok [demoBook]
    ∧ search_books (fun _ => false) demoLib "метод" "to_dict" ≠
        Except.error (PyErr.attributeError "to_dict") := by
  refine ⟨⟨by decide, by decide, by decide, by decide, by decide⟩, rfl, rfl, ?_⟩
  rw [show search_books (fun _ => false) demoLib "метод" "to_dict" =
    Except.ok [] from rfl]
  simp

/-- C10 (amended): on a non-empty catalog, searching on a field name that
is not an attribute of the record object at all — neither one of the five
data fields nor a method / object-protocol name — raises `AttributeError`
rather than returning an empty result (the access is unguarded and
unvalidated); on the method / object-protocol names the access succeeds
and no error is raised, the result being whatever subsequence the
interpreter-dependent textual match selects. -/
theorem C10_invalid_field (methodHit : Book → Bool) (st : Library)
    (kw field : String)
    (hfield : field ≠ "id" ∧ field ≠ "title" ∧ field ≠ "author" ∧
      field ≠ "year" ∧ field ≠ "status")
    (hne : st.books ≠ []) :
    (field ∉ bookOtherAttrNames →
      search_books methodHit st kw field =
        Except.error (PyErr.attributeError field))
    ∧ (field ∈ bookOtherAttrNames →
      search_books methodHit st kw field =
        Except.ok (st.books.filter methodHit)) := by
  obtain ⟨h1, h2, h3, h4, h5⟩ := hfield
  constructor
  · intro hnotmem
    cases hbooks : st.books with
    | nil => exact absurd hbooks hne
    | cons b bs =>
        have hget : Book.getattr b field = none := by
          simp [Book.getattr, h1, h2, h3, h4, h5, hnotmem]
        simp [search_books, hbooks, searchFilter, hget]
  · intro hmem
    have hother : ∀ b ∈ st.books, Book.getattr b field = some PyAttr.other := by
      intro b hb
      simp [Book.getattr, h1, h2, h3, h4, h5, hmem]
    exact searchFilter_other methodHit kw field st.books hother

/-- C10 (witness): field `"publisher"` on a one-record catalog errors;
the hypotheses are discharged concretely. -/
theorem C10_witness :
    search_books (fun _ => false) demoLib "ключ" "publisher" =
      Except.error (PyErr.attributeError "publisher") :=
  (C10_invalid_field (fun _ => false) demoLib "ключ" "publisher"
    ⟨by decide, by decide, by decide, by decide, by decide⟩
    (by decide)).1 (by decide)
